import Mathlib

/-!
Shallow embedding of the porter-clone landing page (Next.js / React / TypeScript).

The page is a composition of six presentational components (Header, Hero,
Services, Features, Testimonials, Footer) that map fixed literal lists to
markup.  Components are embedded as pure Lean functions producing a markup
tree (`Node`).  The only runtime input of the whole program is the calendar
year read from the system clock when the Footer module is loaded
(`CURRENT_YEAR = new Date().getFullYear()`); it is threaded explicitly as a
`Nat` parameter.  Click handlers are embedded as lists of `Effect`s attached
to elements.
-/

/-- Record type from src/types/index.ts: a navigation link. -/
structure NavLink where
  href : String
  label : String
deriving DecidableEq

/-- Record type from src/types/index.ts: a logistics service card. -/
structure Service where
  id : String
  title : String
  description : String
  icon : String
deriving DecidableEq

/-- Record type from src/types/index.ts: a product feature. -/
structure Feature where
  id : String
  icon : String
  title : String
  description : String
deriving DecidableEq

/-- Record type from src/types/index.ts: a customer testimonial. -/
structure Testimonial where
  id : String
  quote : String
  name : String
  role : String
  avatar : String
deriving DecidableEq

/-- Record type from src/types/index.ts: a single footer link. -/
structure FooterLink where
  label : String
  href : String
deriving DecidableEq

/-- Record type from src/types/index.ts: a titled footer column of links. -/
structure FooterColumn where
  title : String
  links : List FooterLink
deriving DecidableEq

/-- Record type from src/types/index.ts: a social-media link. -/
structure SocialLink where
  icon : String
  label : String
  href : String
deriving DecidableEq

/-- Shape of the SERVICE_OPTIONS entries in Hero (inline interface ServiceOption). -/
structure ServiceOption where
  icon : String
  label : String
deriving DecidableEq

/-- An effect a click handler can perform.  `log` models console.log;
`navigate` and `setState` are included so that the absence of navigation and
state change in the one real handler is expressible. -/
inductive Effect where
  | log (msg : String)
  | navigate (url : String)
  | setState
deriving DecidableEq

/-- Markup tree produced by rendering.  `el tag attrs onClick children`
models a JSX element with string attributes (className is embedded as the
"class" attribute holding the CSS-module key names) and an optional click
handler; `text` models a JSX text segment. -/
inductive Node where
  | el (tag : String) (attrs : List (String × String)) (onClick : Option (List Effect)) (children : List Node)
  | text (s : String)

namespace Constants

/-- src/constants/index.ts: NAV_LINKS. -/
def NAV_LINKS : List NavLink :=
  [ { href := "/enterprise", label := "For Enterprise" },
    { href := "/partners", label := "Delivery Partners" },
    { href := "/support", label := "Support" } ]

/-- src/constants/index.ts: SERVICES. -/
def SERVICES : List Service :=
  [ { id := "two-wheeler", title := "2 Wheeler",
      description := "Send packages up to 20kg anytime, anywhere in the city.",
      icon := "🏍️" },
    { id := "trucks", title := "Trucks",
      description := "Rent Tata Ace, 8ft Pickup, and more for goods movement.",
      icon := "🚚" },
    { id := "packers-movers", title := "Packers & Movers",
      description := "Shift your house or office with our safe and reliable services.",
      icon := "📦" },
    { id := "enterprise", title := "Enterprise",
      description := "Logistics solutions for businesses of all sizes.",
      icon := "🏢" } ]

/-- src/constants/index.ts: FEATURES. -/
def FEATURES : List Feature :=
  [ { id := "on-time-delivery", icon := "⏱️", title := "On-Time Delivery",
      description := "Reliable service that ensures your goods reach their destination on time, every time." },
    { id := "real-time-tracking", icon := "📍", title := "Real-time Tracking",
      description := "Track your goods in real-time and stay updated with the location of your package." },
    { id := "economical-pricing", icon := "💰", title := "Economical Pricing",
      description := "Get the best rates in the market with transparent pricing and no hidden charges." } ]

/-- src/constants/index.ts: TESTIMONIALS. -/
def TESTIMONIALS : List Testimonial :=
  [ { id := "testimonial-1",
      quote := "Porter has completely transformed how we manage our logistics. The real-time tracking is a game changer for our business.",
      name := "Rajesh Kumar", role := "Business Owner", avatar := "RK" },
    { id := "testimonial-2",
      quote := "Excellent service! The driver was polite and helpful. I moved my entire house with Porter and it was hassle-free.",
      name := "Priya Singh", role := "Home Maker", avatar := "PS" },
    { id := "testimonial-3",
      quote := "Affordable and reliable. I use Porter for all my ad-hoc delivery needs. Highly recommended.",
      name := "Amit Patel", role := "Freelancer", avatar := "AP" } ]

/-- src/constants/index.ts: FOOTER_COLUMNS. -/
def FOOTER_COLUMNS : List FooterColumn :=
  [ { title := "Company",
      links := [ { label := "About Us", href := "/about" },
                 { label := "Offers", href := "/offers" },
                 { label := "Careers", href := "/careers" },
                 { label := "Blog", href := "/blog" } ] },
    { title := "Services",
      links := [ { label := "City Tempo", href := "/services/city-tempo" },
                 { label := "Packers & Movers", href := "/services/packers-movers" },
                 { label := "Driver Partners", href := "/partners" },
                 { label := "Enterprise", href := "/enterprise" } ] },
    { title := "Support",
      links := [ { label := "Help Center", href := "/help" },
                 { label := "Contact Us", href := "/contact" },
                 { label := "Privacy Policy", href := "/privacy" },
                 { label := "Terms of Service", href := "/terms" } ] },
    { title := "Download App",
      links := [ { label := "Android", href := "https://play.google.com/store" },
                 { label := "iOS", href := "https://apps.apple.com" } ] } ]

/-- src/constants/index.ts: SOCIAL_LINKS. -/
def SOCIAL_LINKS : List SocialLink :=
  [ { icon := "F", label := "Facebook", href := "#" },
    { icon := "T", label := "Twitter", href := "#" },
    { icon := "I", label := "Instagram", href := "#" },
    { icon := "L", label := "LinkedIn", href := "#" } ]

/-- src/constants/index.ts: DEFAULT_CITY. -/
def DEFAULT_CITY : String := "Ahmedabad"

/-- src/constants/index.ts: SERVICE_OPTIONS. -/
def SERVICE_OPTIONS : List ServiceOption :=
  [ { icon := "🚚", label := "Truck" },
    { icon := "🛵", label := "Two Wheeler" },
    { icon := "📦", label := "Packers & Movers" } ]

/-- src/constants/index.ts: CURRENT_YEAR = new Date().getFullYear().
The clock reading is explicit: `nowYear` is the calendar year at module load. -/
def CURRENT_YEAR (nowYear : Nat) : Nat := nowYear

end Constants

namespace HeaderC

/-- Module-local copy in Header.tsx: NAV_LINKS. -/
def NAV_LINKS : List NavLink :=
  [ { href := "/enterprise", label := "For Enterprise" },
    { href := "/partners", label := "Delivery Partners" },
    { href := "/support", label := "Support" } ]

/-- The node produced for one nav entry inside NAV_LINKS.map in Header.tsx
(a next/link, rendered as an anchor; keyed by link.href). -/
def navLinkNode (link : NavLink) : Node :=
  Node.el "a" [("href", link.href), ("class", "navLink")] none [Node.text link.label]

/-- Header.tsx: the Header component. -/
def Header : Node :=
  Node.el "header" [("class", "header")] none
    [ Node.el "div" [("class", "container headerContainer")] none
        [ Node.el "a" [("href", "/"), ("class", "logo"), ("aria-label", "Porter Home")] none
            [Node.text "PORTER"],
          Node.el "nav" [("class", "nav"), ("aria-label", "Main navigation")] none
            (NAV_LINKS.map navLinkNode),
          Node.el "div" [("class", "actions")] none
            [ Node.el "button" [("class", "secondaryBtn"), ("aria-label", "Track your order")] none
                [Node.text "Track Order"],
              Node.el "button" [("class", "primaryBtn"), ("aria-label", "Login to account")] none
                [Node.text "Login"] ] ] ]

end HeaderC

namespace HeroC

/-- Module-local copy in Hero.tsx: SERVICE_OPTIONS. -/
def SERVICE_OPTIONS : List ServiceOption :=
  [ { icon := "🚚", label := "Truck" },
    { icon := "🛵", label := "Two Wheeler" },
    { icon := "📦", label := "Packers & Movers" } ]

/-- Module-local copy in Hero.tsx: DEFAULT_CITY. -/
def DEFAULT_CITY : String := "Ahmedabad"

/-- Hero.tsx: handleGetEstimate — the stub click handler; it only logs. -/
def handleGetEstimate : List Effect := [Effect.log "Get estimate clicked"]

/-- The node produced for one entry of SERVICE_OPTIONS.map in Hero.tsx
(keyed by service.label). -/
def serviceOptionNode (service : ServiceOption) : Node :=
  Node.el "div" [("class", "serviceOption")] none
    [ Node.el "span" [("class", "serviceIcon"), ("aria-hidden", "true")] none
        [Node.text service.icon],
      Node.el "span" [("class", "serviceLabel")] none [Node.text service.label] ]

/-- Hero.tsx: the Get an Estimate button, the only element with onClick. -/
def estimateButton : Node :=
  Node.el "button" [("class", "estimateBtn"), ("aria-label", "Get estimate for delivery")]
    (some handleGetEstimate)
    [ Node.el "span" [("class", "btnText")] none [Node.text "Get an Estimate →"],
      Node.el "span" [("class", "btnSubtext")] none [Node.text "(takes ~2 mins)"] ]

/-- Hero.tsx: the city selector widget row. -/
def citySelector : Node :=
  Node.el "div" [("class", "citySelector"), ("role", "region"), ("aria-label", "Location selector")] none
    [ Node.el "span" [("class", "cityIcon"), ("aria-hidden", "true")] none [Node.text "📍"],
      Node.el "span" [] none
        [Node.text "City: ", Node.el "strong" [] none [Node.text DEFAULT_CITY]],
      Node.el "span" [("aria-hidden", "true")] none [Node.text "▼"] ]

/-- Hero.tsx: the Hero component. -/
def Hero : Node :=
  Node.el "section" [("class", "heroSection")] none
    [ Node.el "div" [("class", "container")] none
        [ Node.el "div" [("class", "heroContent")] none
            [ Node.el "h2" [("class", "heroTitle")] none [Node.text "Delivery hai?"],
              Node.el "h1" [("class", "heroHashtag")] none [Node.text "#HoJayega!"] ] ],
      Node.el "div" [("class", "floatingWidgetContainer")] none
        [ Node.el "div" [("class", "floatingWidget")] none
            [ citySelector,
              Node.el "div" [("class", "servicesGrid"), ("role", "region"), ("aria-label", "Service options")] none
                (SERVICE_OPTIONS.map serviceOptionNode ++ [estimateButton]) ] ] ]

end HeroC

namespace ServicesC

/-- Module-local copy in Services.tsx: SERVICES. -/
def SERVICES : List Service :=
  [ { id := "two-wheeler", title := "2 Wheeler",
      description := "Send packages up to 20kg anytime, anywhere in the city.",
      icon := "🏍️" },
    { id := "trucks", title := "Trucks",
      description := "Rent Tata Ace, 8ft Pickup, and more for goods movement.",
      icon := "🚚" },
    { id := "packers-movers", title := "Packers & Movers",
      description := "Shift your house or office with our safe and reliable services.",
      icon := "📦" },
    { id := "enterprise", title := "Enterprise",
      description := "Logistics solutions for businesses of all sizes.",
      icon := "🏢" } ]

/-- The node produced for one entry of SERVICES.map in Services.tsx
(keyed by service.id). -/
def serviceCard (service : Service) : Node :=
  Node.el "div" [("class", "card")] none
    [ Node.el "div" [("class", "iconPlaceholder"), ("aria-hidden", "true")] none
        [Node.text service.icon],
      Node.el "h3" [("class", "cardTitle")] none [Node.text service.title],
      Node.el "p" [("class", "cardDesc")] none [Node.text service.description] ]

/-- Services.tsx: the Services component. -/
def Services : Node :=
  Node.el "section" [("class", "section")] none
    [ Node.el "div" [("class", "container")] none
        [ Node.el "h2" [("class", "title")] none [Node.text "Services We Offer"],
          Node.el "div" [("class", "grid")] none (SERVICES.map serviceCard) ] ]

end ServicesC

namespace FeaturesC

/-- Module-local copy in Features.tsx: FEATURES. -/
def FEATURES : List Feature :=
  [ { id := "on-time-delivery", icon := "⏱️", title := "On-Time Delivery",
      description := "Reliable service that ensures your goods reach their destination on time, every time." },
    { id := "real-time-tracking", icon := "📍", title := "Real-time Tracking",
      description := "Track your goods in real-time and stay updated with the location of your package." },
    { id := "economical-pricing", icon := "💰", title := "Economical Pricing",
      description := "Get the best rates in the market with transparent pricing and no hidden charges." } ]

/-- The node produced for one entry of FEATURES.map in Features.tsx
(keyed by feature.id). -/
def featureNode (feature : Feature) : Node :=
  Node.el "div" [("class", "feature")] none
    [ Node.el "div" [("class", "icon"), ("aria-hidden", "true")] none [Node.text feature.icon],
      Node.el "h3" [("class", "featureTitle")] none [Node.text feature.title],
      Node.el "p" [("class", "featureText")] none [Node.text feature.description] ]

/-- Features.tsx: the Features component. -/
def Features : Node :=
  Node.el "section" [("class", "section")] none
    [ Node.el "div" [("class", "container")] none
        [ Node.el "h2" [("class", "title")] none [Node.text "Why Choose Porter?"],
          Node.el "div" [("class", "grid")] none (FEATURES.map featureNode) ] ]

end FeaturesC

namespace TestimonialsC

/-- Module-local copy in Testimonials.tsx: TESTIMONIALS. -/
def TESTIMONIALS : List Testimonial :=
  [ { id := "testimonial-1",
      quote := "Porter has completely transformed how we manage our logistics. The real-time tracking is a game changer for our business.",
      name := "Rajesh Kumar", role := "Business Owner", avatar := "RK" },
    { id := "testimonial-2",
      quote := "Excellent service! The driver was polite and helpful. I moved my entire house with Porter and it was hassle-free.",
      name := "Priya Singh", role := "Home Maker", avatar := "PS" },
    { id := "testimonial-3",
      quote := "Affordable and reliable. I use Porter for all my ad-hoc delivery needs. Highly recommended.",
      name := "Amit Patel", role := "Freelancer", avatar := "AP" } ]

/-- The node produced for one entry of TESTIMONIALS.map in Testimonials.tsx
(keyed by testimonial.id; the quote is wrapped in literal double quotes). -/
def testimonialCard (t : Testimonial) : Node :=
  Node.el "div" [("class", "card")] none
    [ Node.el "p" [("class", "quote")] none [Node.text ("\"" ++ t.quote ++ "\"")],
      Node.el "div" [("class", "author")] none
        [ Node.el "div" [("class", "avatar"), ("title", t.name ++ " - " ++ t.role), ("aria-label", t.name)] none
            [Node.text t.avatar],
          Node.el "div" [("class", "authorInfo")] none
            [ Node.el "span" [("class", "name")] none [Node.text t.name],
              Node.el "span" [("class", "role")] none [Node.text t.role] ] ] ]

/-- Testimonials.tsx: the Testimonials component. -/
def Testimonials : Node :=
  Node.el "section" [("class", "section")] none
    [ Node.el "div" [("class", "container")] none
        [ Node.el "h2" [("class", "title")] none [Node.text "What our customers say"],
          Node.el "div" [("class", "grid")] none (TESTIMONIALS.map testimonialCard) ] ]

end TestimonialsC

namespace FooterC

/-- Module-local copy in Footer.tsx: FOOTER_COLUMNS. -/
def FOOTER_COLUMNS : List FooterColumn :=
  [ { title := "Company",
      links := [ { label := "About Us", href := "/about" },
                 { label := "Offers", href := "/offers" },
                 { label := "Careers", href := "/careers" },
                 { label := "Blog", href := "/blog" } ] },
    { title := "Services",
      links := [ { label := "City Tempo", href := "/services/city-tempo" },
                 { label := "Packers & Movers", href := "/services/packers-movers" },
                 { label := "Driver Partners", href := "/partners" },
                 { label := "Enterprise", href := "/enterprise" } ] },
    { title := "Support",
      links := [ { label := "Help Center", href := "/help" },
                 { label := "Contact Us", href := "/contact" },
                 { label := "Privacy Policy", href := "/privacy" },
                 { label := "Terms of Service", href := "/terms" } ] },
    { title := "Download App",
      links := [ { label := "Android", href := "https://play.google.com/store" },
                 { label := "iOS", href := "https://apps.apple.com" } ] } ]

/-- Module-local copy in Footer.tsx: SOCIAL_LINKS. -/
def SOCIAL_LINKS : List SocialLink :=
  [ { icon := "F", label := "Facebook", href := "#" },
    { icon := "T", label := "Twitter", href := "#" },
    { icon := "I", label := "Instagram", href := "#" },
    { icon := "L", label := "LinkedIn", href := "#" } ]

/-- Footer.tsx: CURRENT_YEAR = new Date().getFullYear(), the calendar year
read from the system clock at module load, passed explicitly. -/
def CURRENT_YEAR (nowYear : Nat) : Nat := nowYear

/-- The node produced for one entry of column.links.map in Footer.tsx
(keyed by link.href). -/
def footerLinkNode (link : FooterLink) : Node :=
  Node.el "a" [("href", link.href), ("class", "link")] none [Node.text link.label]

/-- The node produced for one entry of FOOTER_COLUMNS.map in Footer.tsx
(keyed by column.title). -/
def footerColumnNode (column : FooterColumn) : Node :=
  Node.el "div" [] none
    [ Node.el "h4" [("class", "columnTitle")] none [Node.text column.title],
      Node.el "nav" [("class", "linkList"), ("aria-label", column.title ++ " links")] none
        (column.links.map footerLinkNode) ]

/-- The node produced for one entry of SOCIAL_LINKS.map in Footer.tsx
(keyed by social.label). -/
def socialNode (social : SocialLink) : Node :=
  Node.el "a" [("href", social.href), ("class", "socialIcon"), ("aria-label", social.label)] none
    [Node.text social.icon]

/-- Footer.tsx: the Footer component.  `nowYear` is the clock year feeding
CURRENT_YEAR; the copyright paragraph interpolates it between two literal
text segments, exactly as the JSX `© \x7bCURRENT_YEAR\x7d Porter. ...` does. -/
def Footer (nowYear : Nat) : Node :=
  Node.el "footer" [("class", "footer")] none
    [ Node.el "div" [("class", "container")] none
        [ Node.el "div" [("class", "grid")] none (FOOTER_COLUMNS.map footerColumnNode),
          Node.el "div" [("class", "bottom")] none
            [ Node.el "p" [] none
                [ Node.text "© ",
                  Node.text (toString (CURRENT_YEAR nowYear)),
                  Node.text " Porter. All rights reserved." ],
              Node.el "div" [("class", "socials"), ("aria-label", "Social media links")] none
                (SOCIAL_LINKS.map socialNode) ] ] ]

end FooterC

/-- src/app/page.tsx: the Home page component — a single main element whose
children are the six sections in fixed order.  `nowYear` is the clock year
observed by the Footer module at load. -/
def Home (nowYear : Nat) : Node :=
  Node.el "main" [] none
    [ HeaderC.Header,
      HeroC.Hero,
      ServicesC.Services,
      FeaturesC.Features,
      TestimonialsC.Testimonials,
      FooterC.Footer nowYear ]

/-- The state of a running process: the only ambient value rendering can see
is the year captured from the clock when the Footer module was loaded. -/
structure ProcessState where
  currentYear : Nat
deriving DecidableEq

/-- One render of the page: produces the markup tree and the (unchanged)
process state — no component mutates anything. -/
def renderPage (s : ProcessState) : Node × ProcessState :=
  (Home s.currentYear, s)

/-- The outputs of `n` successive renders within one process run, threading
the state from each render into the next. -/
def renderTrace (s : ProcessState) : Nat → List Node
  | 0 => []
  | n + 1 => (renderPage s).1 :: renderTrace (renderPage s).2 n

mutual

/-- All subnodes of a node (the node itself and, recursively, every
descendant), in document order. -/
def subnodes : Node → List Node
  | Node.text s => [Node.text s]
  | Node.el tag attrs onClick children =>
      Node.el tag attrs onClick children :: subnodesList children

/-- All subnodes of each node of a list, concatenated in order. -/
def subnodesList : List Node → List Node
  | [] => []
  | c :: cs => subnodes c ++ subnodesList cs

end

/-- The tag of an element node; "" for a text node. -/
def tagOf : Node → String
  | Node.el tag _ _ _ => tag
  | Node.text _ => ""

/-- The attribute list of an element node; [] for a text node. -/
def attrsOf : Node → List (String × String)
  | Node.el _ attrs _ _ => attrs
  | Node.text _ => []

/-- The click handler of an element node, when it carries one. -/
def onClickOf : Node → Option (List Effect)
  | Node.el _ _ onClick _ => onClick
  | Node.text _ => none

/-- The children of an element node; [] for a text node. -/
def childrenOf : Node → List Node
  | Node.el _ _ _ children => children
  | Node.text _ => []

/-- The string of a text node. -/
def textOf : Node → Option String
  | Node.text s => some s
  | Node.el _ _ _ _ => none

/-- Whether a node is a text node. -/
def isTextNode (n : Node) : Bool := (textOf n).isSome

/-- The i-th child of a node (empty text node when out of range). -/
def nthChild (n : Node) (i : Nat) : Node := (childrenOf n).getD i (Node.text "")

/-- First value bound to `name` in an attribute list. -/
def findAttr (name : String) : List (String × String) → Option String
  | [] => none
  | (k, v) :: rest => if k = name then some v else findAttr name rest

/-- Whether an element carries an aria-label attribute. -/
def hasAriaLabel (n : Node) : Bool := (findAttr "aria-label" (attrsOf n)).isSome

/-- Whether an element is marked hidden from assistive technology. -/
def isAriaHidden (n : Node) : Bool := findAttr "aria-hidden" (attrsOf n) == some "true"

/-- Whether a node is an interactive markup element (anchor or button). -/
def isInteractive (n : Node) : Bool := tagOf n == "a" || tagOf n == "button"

/-- All interactive elements (anchors and buttons) in a tree, in order. -/
def interactiveEls (n : Node) : List Node := (subnodes n).filter isInteractive

/-- All button elements in a tree, in order. -/
def buttonEls (n : Node) : List Node := (subnodes n).filter (fun m => tagOf m == "button")

/-- All anchor elements in a tree, in order. -/
def anchorEls (n : Node) : List Node := (subnodes n).filter (fun m => tagOf m == "a")

/-- All aria-hidden (decorative) elements in a tree, in order. -/
def hiddenEls (n : Node) : List Node := (subnodes n).filter isAriaHidden

/-- All text segments of a tree, in document order. -/
def textsIn (n : Node) : List String := (subnodes n).filterMap textOf

/-- The concatenated text content of a tree. -/
def textContent (n : Node) : String := String.join (textsIn n)

/-- The text contents of all h3 headings of a tree, in document order. -/
def h3Texts (n : Node) : List String :=
  ((subnodes n).filter (fun m => tagOf m == "h3")).map textContent

/-- All click handlers installed anywhere in a tree, in document order. -/
def handlersIn (n : Node) : List (List Effect) := (subnodes n).filterMap onClickOf

/-- The text segments of the Footer copyright paragraph of a page tree:
main → footer (child 5) → container div → bottom div → p. -/
def copyrightTexts (page : Node) : List String :=
  textsIn (nthChild (nthChild (nthChild (nthChild page 5) 0) 1) 0)


/-- C1: the Home page component renders exactly six sections — Header, Hero,
Services, Features, Testimonials, Footer — as the children of a single main
element, in exactly that fixed order, for every render (any clock year). -/
theorem c1_home_composition :
    ∀ nowYear : Nat,
      Home nowYear =
        Node.el "main" [] none
          [ HeaderC.Header, HeroC.Hero, ServicesC.Services, FeaturesC.Features,
            TestimonialsC.Testimonials, FooterC.Footer nowYear ] ∧
      (childrenOf (Home nowYear)).length = 6 :=
  fun _ => ⟨rfl, rfl⟩

/-- C2: every content list rendered by iteration (NAV_LINKS in Header,
SERVICE_OPTIONS in Hero, SERVICES in Services, FEATURES in Features,
TESTIMONIALS in Testimonials, FOOTER_COLUMNS — and each column's links —
and SOCIAL_LINKS in Footer) yields exactly one markup node per list entry,
in list order: the container's children are precisely the map of the
per-entry node over the list (in Hero, followed by the estimate button that
the source places after the mapped options in the same grid). -/
theorem c2_one_node_per_entry :
    ∀ nowYear : Nat,
      childrenOf (nthChild (nthChild HeaderC.Header 0) 1) =
        HeaderC.NAV_LINKS.map HeaderC.navLinkNode ∧
      childrenOf (nthChild (nthChild (nthChild HeroC.Hero 1) 0) 1) =
        HeroC.SERVICE_OPTIONS.map HeroC.serviceOptionNode ++ [HeroC.estimateButton] ∧
      childrenOf (nthChild (nthChild ServicesC.Services 0) 1) =
        ServicesC.SERVICES.map ServicesC.serviceCard ∧
      childrenOf (nthChild (nthChild FeaturesC.Features 0) 1) =
        FeaturesC.FEATURES.map FeaturesC.featureNode ∧
      childrenOf (nthChild (nthChild TestimonialsC.Testimonials 0) 1) =
        TestimonialsC.TESTIMONIALS.map TestimonialsC.testimonialCard ∧
      childrenOf (nthChild (nthChild (FooterC.Footer nowYear) 0) 0) =
        FooterC.FOOTER_COLUMNS.map FooterC.footerColumnNode ∧
      FooterC.FOOTER_COLUMNS.map (fun column => childrenOf (nthChild (FooterC.footerColumnNode column) 1)) =
        FooterC.FOOTER_COLUMNS.map (fun column => column.links.map FooterC.footerLinkNode) ∧
      childrenOf (nthChild (nthChild (nthChild (FooterC.Footer nowYear) 0) 1) 1) =
        FooterC.SOCIAL_LINKS.map FooterC.socialNode :=
  fun _ => ⟨rfl, rfl, rfl, rfl, rfl, rfl, rfl, rfl⟩

/-- C3: the rendered Services output contains exactly the four service
titles 2 Wheeler, Trucks, Packers & Movers, Enterprise (ids two-wheeler,
trucks, packers-movers, enterprise) as its h3 headings, in that order, and
no other service titles. -/
theorem c3_service_titles :
    h3Texts ServicesC.Services = ["2 Wheeler", "Trucks", "Packers & Movers", "Enterprise"] ∧
    ServicesC.SERVICES.map Service.title = ["2 Wheeler", "Trucks", "Packers & Movers", "Enterprise"] ∧
    ServicesC.SERVICES.map Service.id = ["two-wheeler", "trucks", "packers-movers", "enterprise"] :=
  ⟨rfl, rfl, rfl⟩

/-- C4: the values used as iteration keys when rendering each list —
service.id in Services, feature.id in Features, testimonial.id in
Testimonials, link.href in the Header nav and within each footer column,
service.label in Hero, social.label and column.title in Footer — are
pairwise distinct within their list. -/
theorem c4_keys_unique :
    (ServicesC.SERVICES.map Service.id).Nodup ∧
    (FeaturesC.FEATURES.map Feature.id).Nodup ∧
    (TestimonialsC.TESTIMONIALS.map Testimonial.id).Nodup ∧
    (HeaderC.NAV_LINKS.map NavLink.href).Nodup ∧
    List.Forall (fun column => (column.links.map FooterLink.href).Nodup) FooterC.FOOTER_COLUMNS ∧
    (HeroC.SERVICE_OPTIONS.map ServiceOption.label).Nodup ∧
    (FooterC.SOCIAL_LINKS.map SocialLink.label).Nodup ∧
    (FooterC.FOOTER_COLUMNS.map FooterColumn.title).Nodup := by
  refine ⟨?_, ?_, ?_, ?_, ?_, ?_, ?_, ?_⟩ <;> decide

/-- C5 counterexample: page output is NOT independent of the system clock —
two executions whose Footer module loads in calendar years 2025 and 2026
render different pages (the copyright line differs). -/
theorem c5_counterexample : Home 2025 ≠ Home 2026 :=
  fun h => absurd (congrArg copyrightTexts h) (by decide)

/-- C5 amended: every section except the Footer copyright line is determined
entirely by compile-time literals (the first five sections are identical
across executions started at any two times), but the Footer copyright
paragraph interpolates the calendar year read from the system clock at
module load, so executions in different calendar years differ there. -/
theorem c5_amended_clock_dependence :
    (∀ y₁ y₂ : Nat, (childrenOf (Home y₁)).take 5 = (childrenOf (Home y₂)).take 5) ∧
    (∀ nowYear : Nat,
      copyrightTexts (Home nowYear) = ["© ", toString nowYear, " Porter. All rights reserved."]) :=
  ⟨fun _ _ => rfl, fun _ => rfl⟩

/-- C6: within a single process run (a fixed ProcessState holding the year
captured at startup), rendering is idempotent and referentially transparent:
every render in a chain of any length, each threading the state returned by
the previous one, produces the same page tree. -/
theorem c6_render_idempotent :
    ∀ (s : ProcessState) (n : Nat), ∀ x ∈ renderTrace s n, x = Home s.currentYear := by
  intro s n
  induction n with
  | zero => intro x hx; simp [renderTrace] at hx
  | succ k ih =>
      intro x hx
      simp only [renderTrace] at hx
      rcases List.mem_cons.mp hx with h | h
      · exact h
      · exact ih x h

/-- Witness for C6 at a concrete run: a chain of two renders started in 2025
contains the 2025 page, and that render equals the page for the captured
year. -/
theorem c6_witness :
    Home 2025 ∈ renderTrace ⟨2025⟩ 2 ∧ Home 2025 = Home (ProcessState.mk 2025).currentYear :=
  ⟨List.Mem.head _, c6_render_idempotent ⟨2025⟩ 2 (Home 2025) (List.Mem.head _)⟩

/-- C7: the only click handler installed anywhere in the rendered page is
Hero's Get an Estimate handler, and that handler only logs — it performs no
navigation and no state change; every other button and link carries no
handler. -/
theorem c7_sole_handler_only_logs :
    ∀ nowYear : Nat,
      handlersIn (Home nowYear) = [HeroC.handleGetEstimate] ∧
      HeroC.handleGetEstimate = [Effect.log "Get estimate clicked"] ∧
      ∀ e ∈ HeroC.handleGetEstimate,
        (∃ msg, e = Effect.log msg) ∧ (∀ url, e ≠ Effect.navigate url) ∧ e ≠ Effect.setState := by
  intro nowYear
  refine ⟨rfl, rfl, ?_⟩
  intro e he
  have heq : e = Effect.log "Get estimate clicked" := by
    simpa [HeroC.handleGetEstimate] using he
  subst heq
  exact ⟨⟨_, rfl⟩, fun url h => Effect.noConfusion h, fun h => Effect.noConfusion h⟩

/-- Witness for C7 at the concrete effect of the handler: the logged message
is a member of the handler, and the theorem yields that it is a log. -/
theorem c7_witness :
    Effect.log "Get estimate clicked" ∈ HeroC.handleGetEstimate ∧
    (∃ msg, Effect.log "Get estimate clicked" = Effect.log msg) :=
  ⟨List.Mem.head _,
    ((c7_sole_handler_only_logs 2025).2.2 (Effect.log "Get estimate clicked") (List.Mem.head _)).1⟩

/-- C8 counterexample: it is not the case that every interactive element of
the rendered page carries an aria-label — the Header nav links and the
footer column links are anchors with no aria-label attribute, so the
all-interactive-elements-labelled check evaluates to false on the concrete
2025 page. -/
theorem c8_counterexample :
    ((interactiveEls (Home 2025)).all hasAriaLabel) = false := by decide

/-- C8 amended: the page is a tree rooted at main containing the semantic
elements header, nav, section and footer; every button carries an
aria-label; every anchor either carries an aria-label or contains visible
text naming it (the nav and footer text links rely on their text content
rather than an aria-label); and every aria-hidden (decorative) element
contains only text content. -/
theorem c8_amended_accessibility :
    ∀ nowYear : Nat,
      tagOf (Home nowYear) = "main" ∧
      (["header", "nav", "section", "footer"].all
        (fun t => (subnodes (Home nowYear)).any (fun m => tagOf m == t))) = true ∧
      (buttonEls (Home nowYear)).all hasAriaLabel = true ∧
      (anchorEls (Home nowYear)).all (fun n => hasAriaLabel n || textContent n != "") = true ∧
      (hiddenEls (Home nowYear)).all (fun n => (childrenOf n).all isTextNode) = true :=
  fun _ => ⟨rfl, rfl, rfl, rfl, rfl⟩

/-- C9: every module-local content literal equals the identically named
export of the central registry src/constants/index.ts, element for
element. -/
theorem c9_local_copies_match_registry :
    HeaderC.NAV_LINKS = Constants.NAV_LINKS ∧
    ServicesC.SERVICES = Constants.SERVICES ∧
    FeaturesC.FEATURES = Constants.FEATURES ∧
    TestimonialsC.TESTIMONIALS = Constants.TESTIMONIALS ∧
    FooterC.FOOTER_COLUMNS = Constants.FOOTER_COLUMNS ∧
    FooterC.SOCIAL_LINKS = Constants.SOCIAL_LINKS ∧
    HeroC.SERVICE_OPTIONS = Constants.SERVICE_OPTIONS ∧
    HeroC.DEFAULT_CITY = Constants.DEFAULT_CITY :=
  ⟨rfl, rfl, rfl, rfl, rfl, rfl, rfl, rfl⟩

/-- C10: every social-media link rendered in the Footer is a placeholder:
all four SOCIAL_LINKS entries (Facebook, Twitter, Instagram, LinkedIn) have
href "#", and each rendered social anchor's href attribute is "#". -/
theorem c10_social_links_placeholder :
    FooterC.SOCIAL_LINKS.map SocialLink.href = ["#", "#", "#", "#"] ∧
    FooterC.SOCIAL_LINKS.map SocialLink.label = ["Facebook", "Twitter", "Instagram", "LinkedIn"] ∧
    ∀ nowYear : Nat,
      childrenOf (nthChild (nthChild (nthChild (FooterC.Footer nowYear) 0) 1) 1) =
        FooterC.SOCIAL_LINKS.map FooterC.socialNode ∧
      (childrenOf (nthChild (nthChild (nthChild (FooterC.Footer nowYear) 0) 1) 1)).all
        (fun n => findAttr "href" (attrsOf n) == some "#") = true :=
  ⟨rfl, rfl, fun _ => ⟨rfl, rfl⟩⟩
